import Mathlib

/-!
Shallow embedding of the 3D furniture viewer (`src/App.tsx`).

JavaScript numbers are modelled as exact rationals (ℚ).  The two
floating-point stepped `for` loops in the model factory use a step that is
exactly twice the magnitude of the (negative) start value; in IEEE-754
binary64 the addition `start + step` is then exact (the two literals share
a significand, differing only in exponent), so the sequence of loop values
and the iteration count agree with the exact rational semantics used here.
-/

namespace FurnitureApp

/-- 3-component vector (positions, Euler rotations). -/
structure Vec3 where
  x : ℚ
  y : ℚ
  z : ℚ
deriving DecidableEq, Repr

def Vec3.zero : Vec3 := ⟨0, 0, 0⟩

/-- The exact binary64 value of `Math.PI` (0x400921FB54442D18). -/
def mathPI : ℚ := 7074237752028440 / 2251799813685248

/-- Geometry constructors used in `createFurnitureModel`, with the
arguments the source passes (segment counts kept where given). -/
inductive Geometry where
  | box (width height depth : ℚ)
  | cylinder (radiusTop radiusBottom height : ℚ) (radialSegments : Option ℕ)
  | cone (radius height : ℚ) (radialSegments heightSegments : ℕ) (openEnded : Bool)
  | sphere (radius : ℚ) (widthSegments heightSegments : ℕ)
deriving DecidableEq, Repr

inductive MaterialKind where
  | phong
  | basic
deriving DecidableEq, Repr

/-- A material instance.  `instanceId` distinguishes the distinct
`new THREE.*Material` allocations inside one `createFurnitureModel` call:
the shared colored material is instance 0, the lamp bulb material is
instance 1.  Meshes that reuse the same JS object carry the same id. -/
structure Material where
  kind : MaterialKind
  color : ℕ
  emissive : Option ℕ
  instanceId : ℕ
deriving DecidableEq, Repr

/-- One leaf mesh of a furniture group: geometry, material reference,
position and the only rotation ever set on a part (`shade.rotation.x`). -/
structure Mesh where
  geometry : Geometry
  material : Material
  position : Vec3
  rotationX : ℚ
deriving DecidableEq, Repr

inductive FurnitureType where
  | chair
  | table
  | lamp
deriving DecidableEq, Repr

structure FurnitureItem where
  id : ℕ
  name : String
  type : FurnitureType
deriving DecidableEq, Repr

structure ColorOption where
  name : String
  value : ℕ
deriving DecidableEq, Repr

def FURNITURE_ITEMS : List FurnitureItem :=
  [ { id := 1, name := "Modern Chair", type := .chair },
    { id := 2, name := "Coffee Table", type := .table },
    { id := 3, name := "Floor Lamp", type := .lamp } ]

def COLOR_OPTIONS : List ColorOption :=
  [ { name := "White", value := 0xffffff },
    { name := "Black", value := 0x000000 },
    { name := "Natural Wood", value := 0xd2b48c },
    { name := "Blue", value := 0x4169e1 },
    { name := "Red", value := 0xb22222 } ]

/-- Values taken by `for (let v = start; v <= bound; v += step)`.
Fuel-bounded; fuel 8 is ample for every loop in the source (each runs
twice). -/
def stepValues (start bound step : ℚ) : ℕ → List ℚ
  | 0 => []
  | fuel + 1 =>
    if start ≤ bound then start :: stepValues (start + step) bound step fuel
    else []

/-- `createFurnitureModel` from `src/App.tsx` (lines 74–170): builds the
group of meshes for a furniture type, given the selected color's packed
RGB value. -/
def createFurnitureModel (type : FurnitureType) (colorValue : ℕ) : List Mesh :=
  match type with
  | .chair =>
    let material : Material := ⟨.phong, colorValue, none, 0⟩
    let seat : Mesh :=
      { geometry := .box 1 (1/10) 1, material := material,
        position := ⟨0, 1/2, 0⟩, rotationX := 0 }
    let backrest : Mesh :=
      { geometry := .box 1 1 (1/10), material := material,
        position := ⟨0, 1, -(9/20)⟩, rotationX := 0 }
    let legs : List Mesh :=
      (stepValues (-(2/5)) (2/5) (4/5) 8).flatMap (fun x =>
        (stepValues (-(2/5)) (2/5) (4/5) 8).map (fun z =>
          { geometry := .cylinder (1/20) (1/20) (1/2) none, material := material,
            position := ⟨x, 1/4, z⟩, rotationX := 0 }))
    [seat, backrest] ++ legs
  | .table =>
    let material : Material := ⟨.phong, colorValue, none, 0⟩
    let tableTop : Mesh :=
      { geometry := .box 2 (1/10) (3/2), material := material,
        position := ⟨0, 4/5, 0⟩, rotationX := 0 }
    let tableLegs : List Mesh :=
      (stepValues (-(9/10)) (9/10) (9/5) 8).flatMap (fun x =>
        (stepValues (-(13/20)) (13/20) (13/10) 8).map (fun z =>
          { geometry := .box (1/10) (4/5) (1/10), material := material,
            position := ⟨x, 2/5, z⟩, rotationX := 0 }))
    [tableTop] ++ tableLegs
  | .lamp =>
    let material : Material := ⟨.phong, colorValue, none, 0⟩
    let lightMaterial : Material := ⟨.basic, 0xffffcc, some 0xffffcc, 1⟩
    let base : Mesh :=
      { geometry := .cylinder (3/10) (2/5) (1/10) (some 32), material := material,
        position := ⟨0, 1/20, 0⟩, rotationX := 0 }
    let pole : Mesh :=
      { geometry := .cylinder (3/100) (3/100) (3/2) (some 32), material := material,
        position := ⟨0, 4/5, 0⟩, rotationX := 0 }
    let shade : Mesh :=
      { geometry := .cone (3/10) (1/2) 32 1 true, material := material,
        position := ⟨0, 8/5, 0⟩, rotationX := mathPI }
    let bulb : Mesh :=
      { geometry := .sphere (1/10) 16 16, material := lightMaterial,
        position := ⟨0, 7/5, 0⟩, rotationX := 0 }
    [base, pole, shade, bulb]

/-- Non-model children of the scene, in the order `onContextCreate` adds
them; a model child is referenced by its allocation id. -/
inductive SceneChild where
  | ambientLight
  | directionalLight
  | gridHelper
  | model (id : ℕ)
deriving DecidableEq, Repr

/-- The attached furniture object: transform plus its mesh group. -/
structure Object3D where
  position : Vec3
  rotation : Vec3
  group : List Mesh
deriving DecidableEq, Repr

structure Camera where
  position : Vec3
deriving DecidableEq, Repr

/-- The component's refs and selection state.  `objectRef` stores the one
live model object together with its allocation id; the scene children
reference it by that id (the only aliasing in the source).  `nextId` is a
ghost allocation counter giving fresh ids to rebuilt models. -/
structure AppState where
  selectedItem : FurnitureItem
  selectedColor : ColorOption
  scene : Option (List SceneChild)
  camera : Option Camera
  renderer : Option Unit
  objectRef : Option (ℕ × Object3D)
  initialCameraZRef : ℚ
  rotationRef : ℚ × ℚ
  lastPositionRef : ℚ × ℚ
  nextId : ℕ
deriving DecidableEq, Repr

/-- Initial ref/state values (lines 53–72 of `src/App.tsx`). -/
def initialState : AppState :=
  { selectedItem := { id := 1, name := "Modern Chair", type := .chair },
    selectedColor := { name := "White", value := 0xffffff },
    scene := none, camera := none, renderer := none, objectRef := none,
    initialCameraZRef := 3,
    rotationRef := (0, 0), lastPositionRef := (0, 0), nextId := 0 }

/-- `updateFurnitureModel` (lines 231–249): bail out if no scene; remove
the previous model if any; build the new model; reset its position and
rotation; add it to the scene. -/
def updateFurnitureModel (s : AppState) : AppState :=
  match s.scene with
  | none => s
  | some children =>
    let children1 : List SceneChild :=
      match s.objectRef with
      | some (oldId, _) => children.filter (fun c => c ≠ SceneChild.model oldId)
      | none => children
    let group := createFurnitureModel s.selectedItem.type s.selectedColor.value
    let model : Object3D :=
      { position := Vec3.zero, rotation := Vec3.zero, group := group }
    { s with
      scene := some (children1 ++ [SceneChild.model s.nextId]),
      objectRef := some (s.nextId, model),
      nextId := s.nextId + 1 }

/-- `onContextCreate` (lines 172–229), state effects only: renderer,
scene with both lights, camera at (0, 1, 3), grid, then the first model. -/
def onContextCreate (s : AppState) : AppState :=
  updateFurnitureModel
    { s with
      renderer := some (),
      scene := some [SceneChild.ambientLight, SceneChild.directionalLight,
                     SceneChild.gridHelper],
      camera := some { position := ⟨0, 1, 3⟩ } }

/-- The render tick body (lines 218–225): a render call `(scene, camera)`
is issued only when renderer, scene and camera are all present; otherwise
the frame is silently skipped.  The tick never mutates app state. -/
def render (s : AppState) : Option (List SceneChild × Camera) :=
  match s.renderer, s.scene, s.camera with
  | some _, some sc, some c => some (sc, c)
  | _, _, _ => none

/-- `panGesture.onUpdate` (lines 267–285). -/
def panOnUpdate (translationX translationY : ℚ) (s : AppState) : AppState :=
  match s.objectRef with
  | none => s
  | some (id, obj) =>
    let deltaX := translationX - s.lastPositionRef.1
    let deltaY := translationY - s.lastPositionRef.2
    let rot : ℚ × ℚ :=
      (s.rotationRef.1 + deltaY * (1/100), s.rotationRef.2 + deltaX * (1/100))
    let obj1 := { obj with rotation := ⟨rot.1, rot.2, obj.rotation.z⟩ }
    { s with
      rotationRef := rot,
      objectRef := some (id, obj1),
      lastPositionRef := (translationX, translationY) }

/-- `panGesture.onEnd` (lines 286–294). -/
def panOnEnd (s : AppState) : AppState :=
  let s1 :=
    match s.objectRef with
    | some (_, obj) => { s with rotationRef := (obj.rotation.x, obj.rotation.y) }
    | none => s
  { s1 with lastPositionRef := (0, 0) }

/-- `pinchGesture.onStart` (lines 298–303). -/
def pinchOnStart (s : AppState) : AppState :=
  match s.camera with
  | some c => { s with initialCameraZRef := c.position.z }
  | none => s

/-- `pinchGesture.onUpdate` (lines 304–315). -/
def pinchOnUpdate (scale : ℚ) (s : AppState) : AppState :=
  match s.camera with
  | none => s
  | some c =>
    let z := max (3/2) (min 5 (s.initialCameraZRef / scale))
    { s with camera := some { c with position := ⟨c.position.x, c.position.y, z⟩ } }

/-- `pinchGesture.onEnd` (lines 316–321). -/
def pinchOnEnd (s : AppState) : AppState :=
  match s.camera with
  | some c => { s with initialCameraZRef := c.position.z }
  | none => s

/-- Furniture selection tap: set the item, then the effect at lines
252–254 rebuilds the model. -/
def selectItem (item : FurnitureItem) (s : AppState) : AppState :=
  updateFurnitureModel { s with selectedItem := item }

/-- Color selection tap: set the color, then the effect rebuilds. -/
def selectColor (c : ColorOption) (s : AppState) : AppState :=
  updateFurnitureModel { s with selectedColor := c }

/-- Camera distance along the viewing axis, when a camera exists. -/
def cameraZ (s : AppState) : Option ℚ :=
  s.camera.map (fun c => c.position.z)

/-- Rotation of the model the scene displays: the `objectRef` object when
its id is among the scene children. -/
def displayedRotation (s : AppState) : Option Vec3 :=
  match s.scene, s.objectRef with
  | some children, some (id, obj) =>
    if SceneChild.model id ∈ children then some obj.rotation else none
  | _, _ => none

/-- Is this scene child an attached model node? -/
def SceneChild.isModel : SceneChild → Bool
  | .model _ => true
  | _ => false

/-- Number of model children attached to a scene-children list. -/
def modelCount (children : List SceneChild) : ℕ :=
  (children.filter SceneChild.isModel).length

/-- Rotation of the live model object held by `objectRef`. -/
def modelRotation (s : AppState) : Option Vec3 :=
  s.objectRef.map (fun p => p.2.rotation)

/-- A state whose camera sits at the initial position (0, 1, 3), with the
anchor at its initial value 3. -/
def pinchWitnessState : AppState :=
  { initialState with camera := some { position := ⟨0, 1, 3⟩ } }

/-- The state right after surface creation: scene, camera and the first
(white chair) model are all present. -/
def modelState : AppState := onContextCreate initialState

/-- The object `onContextCreate` attaches: the white chair at the origin. -/
def chairObject : Object3D :=
  { position := Vec3.zero, rotation := Vec3.zero,
    group := createFurnitureModel .chair 0xffffff }

/-- C1: a pinch update with scale `s` sets the camera distance to
`clamp(anchor / s, 1.5, 5)`; scale 1 from a distance already in `[1.5, 5]`
leaves it unchanged; scale 10, 0.1 and 2 from anchor 3 give 1.5, 5 and
exactly 1.5. -/
theorem pinch_update_clamp :
    (∀ (s : AppState) (c : Camera) (a scale : ℚ), s.camera = some c →
       s.initialCameraZRef = a → 0 < scale →
       cameraZ (pinchOnUpdate scale s) = some (max (3/2) (min 5 (a / scale)))) ∧
    (∀ (s : AppState) (c : Camera), s.camera = some c →
       3/2 ≤ c.position.z → c.position.z ≤ 5 →
       cameraZ (pinchOnUpdate 1 (pinchOnStart s)) = some c.position.z) ∧
    (∀ (s : AppState) (c : Camera), s.camera = some c → s.initialCameraZRef = 3 →
       cameraZ (pinchOnUpdate 10 s) = some (3/2)) ∧
    (∀ (s : AppState) (c : Camera), s.camera = some c → s.initialCameraZRef = 3 →
       cameraZ (pinchOnUpdate (1/10) s) = some 5) ∧
    (∀ (s : AppState) (c : Camera), s.camera = some c → s.initialCameraZRef = 3 →
       cameraZ (pinchOnUpdate 2 s) = some (3/2)) := by
  refine ⟨?_, ?_, ?_, ?_, ?_⟩
  · intro s c a scale hc ha hs
    subst ha
    simp [pinchOnUpdate, hc, cameraZ]
  · intro s c hc h1 h2
    simp [pinchOnStart, pinchOnUpdate, hc, cameraZ]
    rw [min_eq_right h2, max_eq_right h1]
  · intro s c hc ha
    simp [pinchOnUpdate, hc, cameraZ, ha]
    norm_num
  · intro s c hc ha
    simp [pinchOnUpdate, hc, cameraZ, ha]
    norm_num
  · intro s c hc ha
    simp [pinchOnUpdate, hc, cameraZ, ha]

theorem pinch_update_clamp_witness :
    cameraZ (pinchOnUpdate 2 pinchWitnessState) = some (max (3/2) (min 5 (3 / 2))) ∧
    cameraZ (pinchOnUpdate 1 (pinchOnStart pinchWitnessState)) = some 3 ∧
    cameraZ (pinchOnUpdate 10 pinchWitnessState) = some (3/2) ∧
    cameraZ (pinchOnUpdate (1/10) pinchWitnessState) = some 5 ∧
    cameraZ (pinchOnUpdate 2 pinchWitnessState) = some (3/2) :=
  ⟨pinch_update_clamp.1 pinchWitnessState ⟨⟨0, 1, 3⟩⟩ 3 2 rfl rfl (by norm_num),
   pinch_update_clamp.2.1 pinchWitnessState ⟨⟨0, 1, 3⟩⟩ rfl (by norm_num) (by norm_num),
   pinch_update_clamp.2.2.1 pinchWitnessState ⟨⟨0, 1, 3⟩⟩ rfl rfl,
   pinch_update_clamp.2.2.2.1 pinchWitnessState ⟨⟨0, 1, 3⟩⟩ rfl rfl,
   pinch_update_clamp.2.2.2.2 pinchWitnessState ⟨⟨0, 1, 3⟩⟩ rfl rfl⟩

/-- C2: a pan update with a model attached adds `delta.y * 0.01` and
`delta.x * 0.01` (delta = raw sample minus last sample) to the
accumulated orientation, writes that orientation to the model's
rotation.x/y, and stores the raw sample as the new last sample. -/
theorem pan_update_spec (s : AppState) (id : ℕ) (obj : Object3D) (tx ty : ℚ)
    (h : s.objectRef = some (id, obj)) :
    (panOnUpdate tx ty s).rotationRef =
      (s.rotationRef.1 + (ty - s.lastPositionRef.2) * (1/100),
       s.rotationRef.2 + (tx - s.lastPositionRef.1) * (1/100)) ∧
    (panOnUpdate tx ty s).objectRef = some (id,
      { obj with rotation :=
          ⟨s.rotationRef.1 + (ty - s.lastPositionRef.2) * (1/100),
           s.rotationRef.2 + (tx - s.lastPositionRef.1) * (1/100),
           obj.rotation.z⟩ }) ∧
    (panOnUpdate tx ty s).lastPositionRef = (tx, ty) := by
  simp [panOnUpdate, h]

theorem pan_update_spec_witness :
    (panOnUpdate 100 50 modelState).rotationRef = (1/2, 1) ∧
    (panOnUpdate 100 50 modelState).lastPositionRef = (100, 50) := by
  have h := pan_update_spec modelState 0 chairObject 100 50 rfl
  refine ⟨?_, h.2.2⟩
  rw [h.1]
  norm_num [modelState, onContextCreate, updateFurnitureModel, initialState]

/-- C8: pan gesture end snapshots the model's rotation into the
orientation state and resets the last sample to (0, 0), so the next
update's delta equals its raw sample. -/
theorem pan_end_spec (s : AppState) (id : ℕ) (obj : Object3D)
    (h : s.objectRef = some (id, obj)) :
    (panOnEnd s).rotationRef = (obj.rotation.x, obj.rotation.y) ∧
    (panOnEnd s).lastPositionRef = (0, 0) ∧
    (∀ tx ty, (panOnUpdate tx ty (panOnEnd s)).rotationRef =
      (obj.rotation.x + ty * (1/100), obj.rotation.y + tx * (1/100))) := by
  simp [panOnEnd, panOnUpdate, h]

theorem pan_end_spec_witness :
    (panOnEnd modelState).rotationRef = (0, 0) ∧
    (panOnEnd modelState).lastPositionRef = (0, 0) ∧
    (panOnUpdate 7 9 (panOnEnd modelState)).rotationRef =
      (0 + 9 * (1/100), 0 + 7 * (1/100)) := by
  have h := pan_end_spec modelState 0 chairObject rfl
  exact ⟨h.1, h.2.1, h.2.2 7 9⟩

/-- C9: from a last sample of (0, 0), the raw sample sequence (3,0) then
(5,0) — deltas (3,0) then (2,0) — yields the same final model rotation
and orientation state as the single raw sample (5,0). -/
theorem pan_accumulation_linear (s : AppState) (id : ℕ) (obj : Object3D)
    (h : s.objectRef = some (id, obj)) (h0 : s.lastPositionRef = (0, 0)) :
    modelRotation (panOnUpdate 5 0 (panOnUpdate 3 0 s)) =
      modelRotation (panOnUpdate 5 0 s) ∧
    (panOnUpdate 5 0 (panOnUpdate 3 0 s)).rotationRef =
      (panOnUpdate 5 0 s).rotationRef := by
  simp [panOnUpdate, h, h0, modelRotation]
  ring

theorem pan_accumulation_linear_witness :
    modelRotation (panOnUpdate 5 0 (panOnUpdate 3 0 modelState)) =
      modelRotation (panOnUpdate 5 0 modelState) ∧
    (panOnUpdate 5 0 (panOnUpdate 3 0 modelState)).rotationRef =
      (panOnUpdate 5 0 modelState).rotationRef :=
  pan_accumulation_linear modelState 0 chairObject rfl rfl

/-- C10: a pan update with no model, a pinch update with no camera, and a
render tick with renderer, scene or camera missing are silent no-ops:
the state is returned unchanged and no render call is issued. -/
theorem absent_refs_noop :
    (∀ (s : AppState) (tx ty : ℚ), s.objectRef = none → panOnUpdate tx ty s = s) ∧
    (∀ (s : AppState) (scale : ℚ), s.camera = none → pinchOnUpdate scale s = s) ∧
    (∀ s : AppState, s.renderer = none ∨ s.scene = none ∨ s.camera = none →
       render s = none) := by
  refine ⟨?_, ?_, ?_⟩
  · intro s tx ty h
    simp [panOnUpdate, h]
  · intro s scale h
    simp [pinchOnUpdate, h]
  · intro s h
    rcases hr : s.renderer <;> rcases hsc : s.scene <;> rcases hc : s.camera <;>
      (simp [render, hr, hsc, hc]; try simp_all)

theorem absent_refs_noop_witness :
    panOnUpdate 3 4 initialState = initialState ∧
    pinchOnUpdate 2 initialState = initialState ∧
    render initialState = none :=
  ⟨absent_refs_noop.1 initialState 3 4 rfl,
   absent_refs_noop.2.1 initialState 2 rfl,
   absent_refs_noop.2.2 initialState (Or.inl rfl)⟩

/-- C4: the chair model is exactly six meshes — the 1×0.1×1 seat at
height 0.5, the 1×1×0.1 backrest at height 1 offset back 0.45, and four
cylindrical legs (radius 0.05, height 0.5) at height 0.25 on the four
(±0.4, ±0.4) corners; each stepped loop produces exactly the two values
−0.4 and 0.4. -/
theorem chair_model_structure (c : ℕ) :
    stepValues (-(2/5)) (2/5) (4/5) 8 = [-(2/5), 2/5] ∧
    createFurnitureModel .chair c =
      [ { geometry := .box 1 (1/10) 1, material := ⟨.phong, c, none, 0⟩,
          position := ⟨0, 1/2, 0⟩, rotationX := 0 },
        { geometry := .box 1 1 (1/10), material := ⟨.phong, c, none, 0⟩,
          position := ⟨0, 1, -(9/20)⟩, rotationX := 0 },
        { geometry := .cylinder (1/20) (1/20) (1/2) none, material := ⟨.phong, c, none, 0⟩,
          position := ⟨-(2/5), 1/4, -(2/5)⟩, rotationX := 0 },
        { geometry := .cylinder (1/20) (1/20) (1/2) none, material := ⟨.phong, c, none, 0⟩,
          position := ⟨-(2/5), 1/4, 2/5⟩, rotationX := 0 },
        { geometry := .cylinder (1/20) (1/20) (1/2) none, material := ⟨.phong, c, none, 0⟩,
          position := ⟨2/5, 1/4, -(2/5)⟩, rotationX := 0 },
        { geometry := .cylinder (1/20) (1/20) (1/2) none, material := ⟨.phong, c, none, 0⟩,
          position := ⟨2/5, 1/4, 2/5⟩, rotationX := 0 } ] ∧
    (createFurnitureModel .chair c).length = 6 := by
  norm_num [stepValues, createFurnitureModel]

/-- C3 (amended): a furniture or color selection change leaves the
orientation state, last pan sample, camera distance and zoom anchor
unchanged, but the freshly attached model's rotation is reset to the
identity — the accumulated orientation is re-applied only on the next
pan update, so right after the rebuild the displayed rotation is zero,
not the accumulated OrientationState. -/
theorem selection_preserves_view_state (s : AppState) (item : FurnitureItem)
    (co : ColorOption) (ch : List SceneChild) (hs : s.scene = some ch) :
    (selectItem item s).rotationRef = s.rotationRef ∧
    (selectItem item s).lastPositionRef = s.lastPositionRef ∧
    cameraZ (selectItem item s) = cameraZ s ∧
    (selectItem item s).initialCameraZRef = s.initialCameraZRef ∧
    (selectColor co s).rotationRef = s.rotationRef ∧
    (selectColor co s).lastPositionRef = s.lastPositionRef ∧
    cameraZ (selectColor co s) = cameraZ s ∧
    (selectColor co s).initialCameraZRef = s.initialCameraZRef ∧
    displayedRotation (selectItem item s) = some Vec3.zero ∧
    displayedRotation (selectColor co s) = some Vec3.zero := by
  rcases ho : s.objectRef with _ | ⟨oldId, obj⟩ <;>
    simp [selectItem, selectColor, updateFurnitureModel, hs, ho, cameraZ,
          displayedRotation]

theorem selection_preserves_view_state_witness :
    displayedRotation (selectColor ⟨"Red", 0xb22222⟩ modelState) = some Vec3.zero :=
  (selection_preserves_view_state modelState ⟨3, "Floor Lamp", .lamp⟩
    ⟨"Red", 0xb22222⟩
    [SceneChild.ambientLight, SceneChild.directionalLight, SceneChild.gridHelper,
     SceneChild.model 0] rfl).2.2.2.2.2.2.2.2.2

/-- C3 (counterexample): after a pan that accumulates orientation
(1/2, 1), a color change keeps OrientationState = (1/2, 1) but the newly
attached model is displayed with rotation (0, 0, 0) — the displayed
rotation does not equal the accumulated orientation right after the
rebuild. -/
theorem selection_rotation_reset_cex :
    displayedRotation (panOnUpdate 100 50 (onContextCreate initialState)) =
      some ⟨1/2, 1, 0⟩ ∧
    (selectColor ⟨"Blue", 0x4169e1⟩
        (panOnUpdate 100 50 (onContextCreate initialState))).rotationRef = (1/2, 1) ∧
    displayedRotation (selectColor ⟨"Blue", 0x4169e1⟩
        (panOnUpdate 100 50 (onContextCreate initialState))) = some Vec3.zero ∧
    (Vec3.zero : Vec3) ≠ ⟨1/2, 1, 0⟩ := by
  refine ⟨?_, ?_, ?_, ?_⟩ <;>
    norm_num [selectColor, updateFurnitureModel, panOnUpdate, onContextCreate,
              initialState, displayedRotation, Vec3.zero, Vec3.mk.injEq]

/-- C5: initialization puts the camera at distance 3; a pinch update
always writes a distance inside [1.5, 5] (the clamp enforces the bound at
write time), and pinch start/end do not write the distance at all. -/
theorem zoom_distance_invariant :
    (∀ s : AppState, cameraZ (onContextCreate s) = some 3 ∧
       (3/2 : ℚ) ≤ 3 ∧ (3 : ℚ) ≤ 5) ∧
    (∀ (s : AppState) (c : Camera) (scale : ℚ), s.camera = some c →
       ∃ z1, cameraZ (pinchOnUpdate scale s) = some z1 ∧ 3/2 ≤ z1 ∧ z1 ≤ 5) ∧
    (∀ s : AppState, cameraZ (pinchOnStart s) = cameraZ s) ∧
    (∀ s : AppState, cameraZ (pinchOnEnd s) = cameraZ s) := by
  refine ⟨?_, ?_, ?_, ?_⟩
  · intro s
    refine ⟨?_, by norm_num, by norm_num⟩
    simp [onContextCreate, updateFurnitureModel, cameraZ]
  · intro s c scale hc
    refine ⟨max (3/2) (min 5 (s.initialCameraZRef / scale)), ?_,
            le_max_left _ _, max_le (by norm_num) (min_le_left _ _)⟩
    simp [pinchOnUpdate, hc, cameraZ]
  · intro s
    rcases hc : s.camera <;> simp [pinchOnStart, hc, cameraZ]
  · intro s
    rcases hc : s.camera <;> simp [pinchOnEnd, hc, cameraZ]

theorem zoom_distance_invariant_witness :
    ∃ z1, cameraZ (pinchOnUpdate 10 pinchWitnessState) = some z1 ∧
      3/2 ≤ z1 ∧ z1 ≤ 5 :=
  zoom_distance_invariant.2.1 pinchWitnessState ⟨⟨0, 1, 3⟩⟩ 10 rfl

theorem modelCount_eq_zero_of (l : List SceneChild)
    (h : ∀ i, SceneChild.model i ∉ l) : modelCount l = 0 := by
  induction l with
  | nil => rfl
  | cons c t ih =>
    have ht : ∀ i, SceneChild.model i ∉ t := by
      intro i hi
      exact h i (List.mem_cons_of_mem _ hi)
    have ihz := ih ht
    cases c with
    | model i => exact absurd (List.mem_cons_self _ _) (h i)
    | ambientLight => simpa [modelCount, List.filter_cons, SceneChild.isModel] using ihz
    | directionalLight => simpa [modelCount, List.filter_cons, SceneChild.isModel] using ihz
    | gridHelper => simpa [modelCount, List.filter_cons, SceneChild.isModel] using ihz

theorem modelCount_append (l1 l2 : List SceneChild) :
    modelCount (l1 ++ l2) = modelCount l1 + modelCount l2 := by
  simp [modelCount, List.filter_append]

/-- C6: with a scene present and every attached model child accounted for
by `objectRef`, the rebuild removes the previous model first (the list the
new model is appended to has no model child), resets the new object's
position and rotation to the origin/identity, and attaches it — leaving
exactly one model child in the scene. -/
theorem replace_model_spec (s : AppState) (ch : List SceneChild)
    (hs : s.scene = some ch)
    (href : ∀ i, SceneChild.model i ∈ ch → ∃ obj, s.objectRef = some (i, obj)) :
    ∃ ch1,
      (updateFurnitureModel s).scene = some (ch1 ++ [SceneChild.model s.nextId]) ∧
      modelCount ch1 = 0 ∧
      modelCount (ch1 ++ [SceneChild.model s.nextId]) = 1 ∧
      (updateFurnitureModel s).objectRef = some (s.nextId,
        { position := Vec3.zero, rotation := Vec3.zero,
          group := createFurnitureModel s.selectedItem.type s.selectedColor.value }) := by
  rcases ho : s.objectRef with _ | ⟨oldId, obj⟩
  · have hz : modelCount ch = 0 := by
      refine modelCount_eq_zero_of ch (fun i hi => ?_)
      rcases href i hi with ⟨o, h2⟩
      rw [ho] at h2
      cases h2
    refine ⟨ch, ?_, hz, ?_, ?_⟩
    · simp [updateFurnitureModel, hs, ho]
    · rw [modelCount_append, hz]
      rfl
    · simp [updateFurnitureModel, hs, ho]
  · have hz : modelCount (ch.filter (fun c => c ≠ SceneChild.model oldId)) = 0 := by
      refine modelCount_eq_zero_of _ (fun i hi => ?_)
      rw [List.mem_filter] at hi
      rcases href i hi.1 with ⟨o, h2⟩
      rw [ho] at h2
      injection h2 with h3
      injection h3 with h4 h5
      subst h4
      simp at hi
    refine ⟨ch.filter (fun c => c ≠ SceneChild.model oldId), ?_, hz, ?_, ?_⟩
    · simp [updateFurnitureModel, hs, ho]
    · rw [modelCount_append, hz]
      rfl
    · simp [updateFurnitureModel, hs, ho]

theorem replace_model_spec_witness :
    ∃ ch1,
      (updateFurnitureModel modelState).scene =
        some (ch1 ++ [SceneChild.model modelState.nextId]) ∧
      modelCount ch1 = 0 ∧
      modelCount (ch1 ++ [SceneChild.model modelState.nextId]) = 1 ∧
      (updateFurnitureModel modelState).objectRef = some (modelState.nextId,
        { position := Vec3.zero, rotation := Vec3.zero,
          group := createFurnitureModel modelState.selectedItem.type
                     modelState.selectedColor.value }) := by
  refine replace_model_spec modelState
    [SceneChild.ambientLight, SceneChild.directionalLight, SceneChild.gridHelper,
     SceneChild.model 0] rfl ?_
  intro i hi
  simp [modelState, onContextCreate, updateFurnitureModel, initialState] at hi ⊢
  omega

/-- C7: for every furniture kind and every predefined color choice, the
built group is non-empty and each mesh uses either the one shared phong
material colored with the choice's packed RGB value, or — only for the
lamp — the fixed warm emissive bulb material with color 0xffffcc. -/
theorem build_material_sharing :
    ∀ (t : FurnitureType) (co : ColorOption), co ∈ COLOR_OPTIONS →
      createFurnitureModel t co.value ≠ [] ∧
      ∀ m ∈ createFurnitureModel t co.value,
        m.material = ⟨.phong, co.value, none, 0⟩ ∨
        (t = .lamp ∧ m.material = ⟨.basic, 0xffffcc, some 0xffffcc, 1⟩) := by
  intro t co hco
  simp only [COLOR_OPTIONS, List.mem_cons, List.not_mem_nil, or_false] at hco
  rcases hco with rfl | rfl | rfl | rfl | rfl <;> cases t <;>
    norm_num [createFurnitureModel, stepValues] <;> simp

theorem build_material_sharing_witness :
    createFurnitureModel .lamp 0xb22222 ≠ [] ∧
    ∀ m ∈ createFurnitureModel .lamp 0xb22222,
      m.material = ⟨.phong, 0xb22222, none, 0⟩ ∨
      (FurnitureType.lamp = .lamp ∧
       m.material = ⟨.basic, 0xffffcc, some 0xffffcc, 1⟩) :=
  build_material_sharing .lamp ⟨"Red", 0xb22222⟩ (by simp [COLOR_OPTIONS])

end FurnitureApp
